import Mathlib

/-!
Shallow embedding of the fathersday-2025 photo-ticker core:
glyph mask engine and tile-to-glyph mapper (src/src/lib/glyphMap.ts),
atlas builder, photo analyzer and batch handlers (server photo module),
and the render/animation engine's scroll and hover logic
(src/src/lib/pixiTicker.ts).  Numeric values computed with JavaScript
floating point are modelled as exact rationals; machine integers as Nat.
Strings that only act as identifiers (filenames) are kept abstract where
convenient; error values are modelled as abstract codes.
-/

namespace FD

/-! ### Glyph mask engine (glyphMap.ts, generateTextMask) -/

/-- Binary occupancy mask: `pixels` is row-major, one entry per pixel,
`1` meaning glyph ink present (glyphMap.ts lines 3-7). -/
structure GlyphMask where
  width : Nat
  height : Nat
  pixels : List Nat
  deriving DecidableEq, Repr

/-- The browser canvas environment that `generateTextMask` reads:
`measureWidth font text fontSize` models `ctx.measureText(text).width`
after `ctx.font` was set from the font family and size, and
`rasterAlpha font text fontSize padding w h i` models the alpha byte
`data[i * 4 + 3]` of `ctx.getImageData(0, 0, w, h)` after `fillText`
drew the text at offset `(padding, padding)` on a `w × h` canvas. -/
structure CanvasEnv where
  measureWidth : String → String → Nat → ℚ
  rasterAlpha : String → String → Nat → Nat → Nat → Nat → Nat → Nat

/-- Threshold of one alpha byte (glyphMap.ts line 61):
`data[i * 4 + 3] > 128 ? 1 : 0`. -/
def maskBit (a : Nat) : Nat :=
  if 128 < a then 1 else 0

/-- Embedding of `generateTextMask(text, scale, fontFamily)`
(glyphMap.ts lines 19-69).  `fontSize = Math.floor(100 * scale)`,
`padding = Math.floor(20 * scale)`,
`width = Math.ceil(metrics.width + padding * 2)`,
`height = Math.ceil(fontSize * 1.5 + padding * 2)`, and every pixel is
the alpha byte thresholded by `maskBit`.  The scale is a nonnegative
rational (the JS caller passes a positive float); `Int.toNat` realises
that the floors and ceils of nonnegative quantities are naturals. -/
def generateTextMask (env : CanvasEnv) (text : String) (scale : ℚ)
    (fontFamily : String) : GlyphMask :=
  let fontSize : Nat := (Int.floor (100 * scale)).toNat
  let padding : Nat := (Int.floor (20 * scale)).toNat
  let mw : ℚ := env.measureWidth fontFamily text fontSize
  let width : Nat := (Int.ceil (mw + padding * 2)).toNat
  let height : Nat := (Int.ceil ((fontSize : ℚ) * (3 / 2) + padding * 2)).toNat
  let pixels : List Nat :=
    (List.range (width * height)).map
      (fun i => maskBit (env.rasterAlpha fontFamily text fontSize padding width height i))
  { width := width, height := height, pixels := pixels }

/-! ### Tile-to-glyph mapper (glyphMap.ts, mapTilesToGlyph) -/

/-- One tile entry of the atlas metadata document
(`atlasData.tiles[k]`): id, filename, pixel rectangle inside the packed
image, and the copied visual statistics.  Filenames are abstracted to
numeric identifiers. -/
structure AtlasTile where
  id : Nat
  filename : Nat
  x : Nat
  y : Nat
  width : Nat
  height : Nat
  avgR : Nat
  avgG : Nat
  avgB : Nat
  luma : ℚ
  saturation : ℚ
  deriving DecidableEq, Repr

/-- The atlas metadata document `{tiles, width, height, tileSize}`. -/
structure AtlasData where
  tiles : List AtlasTile
  width : Nat
  height : Nat
  tileSize : Nat
  deriving DecidableEq, Repr

/-- One output entry of `mapTilesToGlyph` (glyphMap.ts lines 9-14). -/
structure TileMapping where
  x : Nat
  y : Nat
  tileIndex : Nat
  isForeground : Bool
  deriving DecidableEq, Repr

/-- Foreground desirability score (glyphMap.ts lines 103-104):
`luma * 0.7 + saturation * 100 * 0.3`. -/
def fgScore (t : AtlasTile) : ℚ :=
  t.luma * (7 / 10) + t.saturation * 100 * (3 / 10)

/-- Background desirability score (glyphMap.ts lines 111-112):
`luma * 0.5 + (1 - saturation) * 100 * 0.5`. -/
def bgScore (t : AtlasTile) : ℚ :=
  t.luma * (1 / 2) + (1 - t.saturation) * 100 * (1 / 2)

/-- Swap two positions of a list (the destructuring swap inside
`shuffleArray`); out-of-range indices leave the list unchanged. -/
def listSwap (l : List α) (i j : Nat) : List α :=
  match l.get? i, l.get? j with
  | some a, some b => (l.set i b).set j a
  | _, _ => l

/-- Loop of the Fisher-Yates shuffle (glyphMap.ts lines 74-83), indices
running from `i` down to `1`; `rand k % (k + 1)` models the draw
`Math.floor(Math.random() * (k + 1))`, which lies in `[0, k]`. -/
def shuffleAux (rand : Nat → Nat) : Nat → List α → List α
  | 0, l => l
  | i + 1, l => shuffleAux rand i (listSwap l (i + 1) (rand (i + 1) % (i + 2)))

/-- Embedding of `shuffleArray` (glyphMap.ts lines 74-83), parameterised
by the sequence of random draws. -/
def shuffleArray (rand : Nat → Nat) (l : List α) : List α :=
  shuffleAux rand (l.length - 1) l

/-- The foreground-sorted tile list (glyphMap.ts lines 100-106):
stable sort descending by `fgScore`. -/
def sortedForeground (tiles : List AtlasTile) : List AtlasTile :=
  tiles.mergeSort (fun a b => decide (fgScore b ≤ fgScore a))

/-- The background-sorted tile list (glyphMap.ts lines 108-114):
stable sort ascending by `bgScore`. -/
def sortedBackground (tiles : List AtlasTile) : List AtlasTile :=
  tiles.mergeSort (fun a b => decide (bgScore a ≤ bgScore b))

/-- The shuffled foreground ordering (glyphMap.ts line 117). -/
def shuffledForeground (rand : Nat → Nat) (tiles : List AtlasTile) : List AtlasTile :=
  shuffleArray rand (sortedForeground tiles)

/-- The shuffled background ordering (glyphMap.ts line 118). -/
def shuffledBackground (rand : Nat → Nat) (tiles : List AtlasTile) : List AtlasTile :=
  shuffleArray rand (sortedBackground tiles)

/-- Horizontal sample coordinate of a cell (glyphMap.ts lines 130-133):
`Math.min(Math.floor(tx * tileSize + tileSize / 2), mask.width - 1)`;
for naturals the floor is exact with `tileSize / 2` as Nat division. -/
def sampleX (tx tileSize w : Nat) : Nat :=
  min (tx * tileSize + tileSize / 2) (w - 1)

/-- Vertical sample coordinate of a cell (glyphMap.ts lines 134-137). -/
def sampleY (ty tileSize h : Nat) : Nat :=
  min (ty * tileSize + tileSize / 2) (h - 1)

/-- Number of cell columns, `Math.ceil(mask.width / tileSize)`. -/
def tilesX (mask : GlyphMask) (tileSize : Nat) : Nat :=
  (mask.width + tileSize - 1) / tileSize

/-- Number of cell rows, `Math.ceil(mask.height / tileSize)`. -/
def tilesY (mask : GlyphMask) (tileSize : Nat) : Nat :=
  (mask.height + tileSize - 1) / tileSize

/-- The cell grid in row-major order: `(tx, ty)` for `ty` in
`0..tilesY`, `tx` in `0..tilesX` (the nested loops of lines 124-125). -/
def cellGrid (mask : GlyphMask) (tileSize : Nat) : List (Nat × Nat) :=
  (List.range (tilesY mask tileSize)).flatMap
    (fun ty => (List.range (tilesX mask tileSize)).map (fun tx => (tx, ty)))

/-- Body of the mapping loop (glyphMap.ts lines 124-160): the state is
`(foregroundIndex, backgroundIndex, mappings)`; `nF` and `nB` are the
lengths of the shuffled foreground and background orderings.  A mask
read out of range yields `undefined`, which compares unequal to `1`;
`getD _ 0` reproduces that. -/
def mapStep (mask : GlyphMask) (tileSize nF nB : Nat)
    (st : Nat × Nat × List TileMapping) (c : Nat × Nat) :
    Nat × Nat × List TileMapping :=
  let x := c.1 * tileSize
  let y := c.2 * tileSize
  let sx := sampleX c.1 tileSize mask.width
  let sy := sampleY c.2 tileSize mask.height
  let maskValue := mask.pixels.getD (sy * mask.width + sx) 0
  if maskValue = 1 then
    (st.1 + 1, st.2.1,
      st.2.2 ++ [{ x := x, y := y, tileIndex := st.1 % nF, isForeground := true }])
  else
    (st.1, st.2.1 + 1,
      st.2.2 ++ [{ x := x, y := y, tileIndex := st.2.1 % nB, isForeground := false }])

/-- Embedding of `mapTilesToGlyph(mask, atlasData, tileSize)`
(glyphMap.ts lines 88-163), parameterised by the random draws of the
two shuffles.  Note that the loop body uses the shuffled orderings only
through their lengths: `tileIndex` is the running per-class counter
modulo that length. -/
def mapTilesToGlyph (randF randB : Nat → Nat) (mask : GlyphMask)
    (atlasData : AtlasData) (tileSize : Nat) : List TileMapping :=
  let nF := (shuffledForeground randF atlasData.tiles).length
  let nB := (shuffledBackground randB atlasData.tiles).length
  ((cellGrid mask tileSize).foldl (mapStep mask tileSize nF nB) (0, 0, [])).2.2

/-- The texture the render engine binds to a mapping's sprite
(pixiTicker.ts line 117, `this.atlas.tiles[mapping.tileIndex]`): the
atlas loader builds one texture per metadata tile in document order, so
the sprite shows tile `atlasData.tiles[tileIndex]`. -/
def renderedTile (atlasData : AtlasData) (m : TileMapping) : Option AtlasTile :=
  atlasData.tiles.get? m.tileIndex

/-! ### Atlas builder (server photo module, buildAtlas) -/

/-- Tile cell size of the packed atlas, `ATLAS_TILE_SIZE = 128`. -/
def ATLAS_TILE_SIZE : Nat := 128

/-- Maximum atlas image width, `ATLAS_MAX_SIZE = 4096`. -/
def ATLAS_MAX_SIZE : Nat := 4096

/-- One photo row as `buildAtlas` reads it from the database, together
with whether its 512px webp variant file exists on disk (the
`existsSync(variantPath)` test).  Filenames are abstract identifiers. -/
structure Photo where
  id : Nat
  filename : Nat
  avgR : Nat
  avgG : Nat
  avgB : Nat
  luma : ℚ
  saturation : ℚ
  has512Variant : Bool
  deriving DecidableEq, Repr

/-- `tilesPerRow = Math.ceil(Math.sqrt(photos.length))`: the least `k`
with `n ≤ k * k`, written via `Nat.sqrt` (the floor square root). -/
def tilesPerRow (n : Nat) : Nat :=
  if Nat.sqrt n * Nat.sqrt n = n then Nat.sqrt n else Nat.sqrt n + 1

/-- `atlasWidth = Math.min(tilesPerRow * ATLAS_TILE_SIZE, ATLAS_MAX_SIZE)`.
Only the image width is capped; `tilesPerRow` itself is not. -/
def atlasWidth (n : Nat) : Nat :=
  min (tilesPerRow n * ATLAS_TILE_SIZE) ATLAS_MAX_SIZE

/-- `atlasHeight = Math.ceil(photos.length / tilesPerRow) * ATLAS_TILE_SIZE`. -/
def atlasHeight (n : Nat) : Nat :=
  ((n + tilesPerRow n - 1) / tilesPerRow n) * ATLAS_TILE_SIZE

/-- Pixel x of the cell of photo index `i`:
`(i % tilesPerRow) * ATLAS_TILE_SIZE`. -/
def tileXOf (n i : Nat) : Nat :=
  (i % tilesPerRow n) * ATLAS_TILE_SIZE

/-- Pixel y of the cell of photo index `i`:
`Math.floor(i / tilesPerRow) * ATLAS_TILE_SIZE`. -/
def tileYOf (n i : Nat) : Nat :=
  (i / tilesPerRow n) * ATLAS_TILE_SIZE

/-- The metadata tile entry `buildAtlas` pushes for photo `p` at
index `i` among `n` photos. -/
def tileOfPhoto (n i : Nat) (p : Photo) : AtlasTile :=
  { id := p.id
    filename := p.filename
    x := tileXOf n i
    y := tileYOf n i
    width := ATLAS_TILE_SIZE
    height := ATLAS_TILE_SIZE
    avgR := p.avgR
    avgG := p.avgG
    avgB := p.avgB
    luma := p.luma
    saturation := p.saturation }

/-- The `atlasData.tiles` array built by the placement loop of
`buildAtlas`: photo `i` is placed at grid cell
`(i % tilesPerRow, i div tilesPerRow)`; a photo whose 512px variant
file is missing is skipped (nothing is pushed for it), but it still
occupies its index in the placement enumeration. -/
def buildAtlasTiles (photos : List Photo) : List AtlasTile :=
  let n := photos.length
  photos.enum.filterMap
    (fun ip => if ip.2.has512Variant then some (tileOfPhoto n ip.1 ip.2) else none)

/-- The whole metadata document written by `buildAtlas` (its dimensions
and tile list; the image path and database row are I/O effects outside
the embedding). -/
def buildAtlasData (photos : List Photo) : AtlasData :=
  { tiles := buildAtlasTiles photos
    width := atlasWidth photos.length
    height := atlasHeight photos.length
    tileSize := ATLAS_TILE_SIZE }

/-! ### Photo analyzer (server photo module) -/

/-- `calculateLuma(r, g, b) = 0.299 * r + 0.587 * g + 0.114 * b`. -/
def calculateLuma (r g b : ℚ) : ℚ :=
  (299 / 1000) * r + (587 / 1000) * g + (114 / 1000) * b

/-- `calculateSaturation(r, g, b)`: `(max - min) / max`, and `0` when
`max` is `0`. -/
def calculateSaturation (r g b : ℚ) : ℚ :=
  let mx := max r (max g b)
  let mn := min r (min g b)
  let delta := mx - mn
  if mx = 0 then 0 else delta / mx

/-! ### Batch handlers (server photo module, handleUpload / reindexPhotos) -/

/-- One uploaded file together with the outcome its `processPhoto` call
would have: `Except.ok photoId` or `Except.error code` (the thrown
error, abstracted to a code). -/
structure UploadFile where
  name : Nat
  processResult : Except Nat Nat
  deriving Repr

/-- One per-item entry of the `results` array `handleUpload` responds
with. -/
structure UploadItemResult where
  name : Nat
  success : Bool
  photoId : Option Nat
  errCode : Option Nat
  deriving DecidableEq, Repr

/-- Embedding of the per-file loop of `handleUpload`: each file's
`processPhoto` is wrapped in its own try/catch, so every file yields
one result entry and a failure never stops the loop. -/
def handleUploadResults (files : List UploadFile) : List UploadItemResult :=
  files.map (fun f =>
    match f.processResult with
    | Except.ok photoId =>
        { name := f.name, success := true, photoId := some photoId, errCode := none }
    | Except.error e =>
        { name := f.name, success := false, photoId := none, errCode := some e })

/-- One directory entry as `reindexPhotos` sees it: whether its
extension is one of `.jpg/.jpeg/.png/.webp` (`extOk`), whether a photo
row with this filename already exists (`existing`), and the outcome of
`processPhoto` if it were called on it. -/
structure ReindexFile where
  name : Nat
  extOk : Bool
  existing : Bool
  processResult : Except Nat Nat
  deriving Repr

/-- Embedding of `reindexPhotos`: returns the names of the photos that
were actually processed, the count it would return, and the error that
aborted the loop, if any.  The loop has no per-item try/catch: a
`processPhoto` throw propagates out of the whole function, so files
after the failing one are never visited. -/
def reindexRun : List ReindexFile → List Nat × Nat × Option Nat
  | [] => ([], 0, none)
  | f :: rest =>
    if f.extOk = false then reindexRun rest
    else if f.existing then reindexRun rest
    else
      match f.processResult with
      | Except.error e => ([], 0, some e)
      | Except.ok _ =>
          let r := reindexRun rest
          (f.name :: r.1, r.2.1 + 1, r.2.2)

/-! ### Render/animation engine (pixiTicker.ts) -/

/-- The mutable transform of one scene sprite (position and uniform
scale; `sprite.scale.set` keeps x and y scale equal). -/
@[ext]
structure SpriteState where
  x : ℚ
  y : ℚ
  scale : ℚ
  deriving DecidableEq, Repr

/-- Cubic ease in-out (pixiTicker.ts lines 306-308). -/
def easeCubic (p : ℚ) : ℚ :=
  if p < 1 / 2 then 4 * p ^ 3 else 1 - (-2 * p + 2) ^ 3 / 2

/-- Linear interpolation `start + (target - start) * t` used for each
animated property (pixiTicker.ts lines 310-321). -/
def easedValue (s e t : ℚ) : ℚ :=
  s + (e - s) * t

/-- The sprite transform `animateSprite` has produced once the clamped
progress `min (elapsed / duration) 1` equals `p` (pixiTicker.ts lines
292-329). -/
def animateSpriteAt (start target : SpriteState) (p : ℚ) : SpriteState :=
  let t := easeCubic (min p 1)
  { x := easedValue start.x target.x t
    y := easedValue start.y target.y t
    scale := easedValue start.scale target.scale t }

/-- Zoom target of `handleHoverStart` (pixiTicker.ts lines 243-253):
`targetWidth = screen.width * 0.6`, `targetScale = targetWidth / texW`,
centered on screen coordinates. -/
def hoverStartTarget (screenW screenH texW texH : ℚ) : SpriteState :=
  let targetWidth := screenW * (3 / 5)
  let targetScale := targetWidth / texW
  { x := (screenW - targetWidth) / 2
    y := (screenH - texH * targetScale) / 2
    scale := targetScale }

/-- Restore target of `handleHoverEnd` (pixiTicker.ts lines 266-272):
scale and y from the saved original data, but
`x = original.x - this.scrollOffset`. -/
def hoverEndTarget (original : SpriteState) (scrollOffset : ℚ) : SpriteState :=
  { x := original.x - scrollOffset
    y := original.y
    scale := original.scale }

/-- One scrolling frame (pixiTicker.ts lines 360-373): the offset
advances by `scrollSpeed * delta * direction` and is reset to exactly
`0` when its magnitude exceeds the loop width, else kept. -/
def scrollTick (scrollSpeed : ℚ) (dirRight : Bool) (loopWidth delta offset : ℚ) : ℚ :=
  let next := offset + scrollSpeed * delta * (if dirRight then 1 else -1)
  if loopWidth < |next| then 0 else next

/-- A run of scrolling frames with the given per-frame elapsed times. -/
def scrollRun (scrollSpeed : ℚ) (dirRight : Bool) (loopWidth : ℚ)
    (deltas : List ℚ) (offset : ℚ) : ℚ :=
  deltas.foldl (fun o d => scrollTick scrollSpeed dirRight loopWidth d o) offset

/-- `getLoopWidth` (pixiTicker.ts lines 379-384) over the sprite x
positions: `|sprites[floor(len / 2)].x - sprites[0].x|`, `0` when there
are no sprites. -/
def getLoopWidth (xs : List ℚ) : ℚ :=
  if xs.length = 0 then 0
  else |xs.getD (xs.length / 2) 0 - xs.getD 0 0|

/-- Sprite x positions after `duplicateContainerForLoop` (pixiTicker.ts
lines 168-192): the originals followed by one duplicate per original,
offset by the container width plus the fixed gap of `100`. -/
def duplicateXs (xs : List ℚ) (width : ℚ) : List ℚ :=
  xs ++ xs.map (fun x => x + width + 100)

/-! ### Concrete instances used by counterexamples and witnesses -/

/-- Canvas environment whose raster has constant alpha `a` and where
every text measures width `1`. -/
def constCanvasEnv (a : Nat) : CanvasEnv :=
  { measureWidth := fun _ _ _ => 1
    rasterAlpha := fun _ _ _ _ _ _ _ => a }

/-- Canvas environment that differs from `constCanvasEnv a` only in the
measured width of the font family named `zz`. -/
def altCanvasEnv (a : Nat) : CanvasEnv :=
  { measureWidth := fun f _ _ => if f = ("zz") then 7 else 1
    rasterAlpha := fun _ _ _ _ _ _ _ => a }

/-- A dark, fully desaturated atlas tile. -/
def tDark : AtlasTile :=
  { id := 0, filename := 0, x := 0, y := 0, width := 128, height := 128
    avgR := 0, avgG := 0, avgB := 0, luma := 0, saturation := 0 }

/-- A bright, fully saturated atlas tile. -/
def tBright : AtlasTile :=
  { id := 1, filename := 1, x := 128, y := 0, width := 128, height := 128
    avgR := 255, avgG := 0, avgB := 0, luma := 255, saturation := 1 }

/-- A two-tile atlas document: the dark tile first, the bright tile
second. -/
def demoAtlas : AtlasData :=
  { tiles := [tDark, tBright], width := 256, height := 128, tileSize := 128 }

/-- A one-pixel mask whose single pixel is foreground ink. -/
def maskOne : GlyphMask :=
  { width := 1, height := 1, pixels := [1] }

/-- A 3 × 3 checker mask. -/
def maskChecker : GlyphMask :=
  { width := 3, height := 3, pixels := [1, 0, 1, 0, 1, 0, 1, 0, 1] }

/-- Random-draw sequence that makes every Fisher-Yates step swap an
index with itself: the shuffle is the identity permutation. -/
def idRand : Nat → Nat := fun k => k

/-- A photo whose 512px variant file exists. -/
def demoPhoto : Photo :=
  { id := 3, filename := 3, avgR := 10, avgG := 20, avgB := 30
    luma := 18, saturation := 1 / 2, has512Variant := true }

/-- A photo whose 512px variant file is missing. -/
def demoPhotoNoVariant : Photo :=
  { id := 4, filename := 4, avgR := 1, avgG := 2, avgB := 3
    luma := 2, saturation := 1 / 4, has512Variant := false }

/-- A directory entry whose `processPhoto` call throws (error code 5). -/
def badFile : ReindexFile :=
  { name := 10, extOk := true, existing := false, processResult := Except.error 5 }

/-- A directory entry whose `processPhoto` call succeeds. -/
def goodFile : ReindexFile :=
  { name := 11, extOk := true, existing := false, processResult := Except.ok 99 }

/-! ### Claim C7: photo analyzer ranges -/

/-- Claim C7: for all mean channel values R, G, B in [0, 255] the
analyzer returns luma = 0.299R + 0.587G + 0.114B, which lies in
[0, 255], and saturation = (max − min) / max with saturation 0 when the
maximum is 0, which lies in [0, 1]. -/
theorem C7_analyzer_ranges (r g b : ℚ)
    (hr0 : 0 ≤ r) (hr : r ≤ 255) (hg0 : 0 ≤ g) (hg : g ≤ 255)
    (hb0 : 0 ≤ b) (hb : b ≤ 255) :
    calculateLuma r g b = (299 / 1000) * r + (587 / 1000) * g + (114 / 1000) * b ∧
    0 ≤ calculateLuma r g b ∧ calculateLuma r g b ≤ 255 ∧
    0 ≤ calculateSaturation r g b ∧ calculateSaturation r g b ≤ 1 ∧
    (max r (max g b) = 0 → calculateSaturation r g b = 0) := by
  have hmx0 : 0 ≤ max r (max g b) := le_trans hr0 (le_max_left _ _)
  have hmn0 : 0 ≤ min r (min g b) := le_min hr0 (le_min hg0 hb0)
  have hmnmx : min r (min g b) ≤ max r (max g b) :=
    le_trans (min_le_left _ _) (le_max_left _ _)
  refine ⟨rfl, ?_, ?_, ?_, ?_, ?_⟩
  · unfold calculateLuma; linarith
  · unfold calculateLuma; linarith
  · simp only [calculateSaturation]
    split_ifs with h
    · exact le_refl 0
    · exact div_nonneg (by linarith) hmx0
  · simp only [calculateSaturation]
    split_ifs with h
    · norm_num
    · have hpos : 0 < max r (max g b) := lt_of_le_of_ne hmx0 (Ne.symm h)
      exact (div_le_one hpos).mpr (by linarith)
  · intro h
    simp [calculateSaturation, h]

/-- Witness for C7 at the pure red image (255, 0, 0). -/
theorem C7_analyzer_ranges_witness :
    calculateLuma 255 0 0 ≤ 255 ∧ 0 ≤ calculateSaturation 255 0 0 ∧
    calculateSaturation 255 0 0 ≤ 1 :=
  have h := C7_analyzer_ranges 255 0 0 (by norm_num) (by norm_num) (by norm_num)
    (by norm_num) (by norm_num) (by norm_num)
  ⟨h.2.2.1, h.2.2.2.1, h.2.2.2.2.1⟩

/-! ### Claim C2: atlas grid cap -/

/-- Helper: the tile of a photo whose 512px variant exists is a member
of the built atlas tile list. -/
theorem tile_mem_buildAtlasTiles (photos : List Photo) (i : Nat) (p : Photo)
    (hget : photos.get? i = some p) (hv : p.has512Variant = true) :
    tileOfPhoto photos.length i p ∈ buildAtlasTiles photos := by
  unfold buildAtlasTiles
  refine List.mem_filterMap.mpr ⟨(i, p), ?_, ?_⟩
  · exact List.mk_mem_enum_iff_getElem?.mpr (by simpa using hget)
  · simp [hv]

/-- Claim C2 (evaluation at the failing input): `buildAtlas` caps only
the atlas image width, not `tilesPerRow`, so with 1025 photos
`tilesPerRow = 33`, the declared width is 4096, yet the tile placed at
index 32 occupies x ∈ [4096, 4224), outside the declared atlas width:
its rectangle does not lie inside the atlas image bounds. -/
theorem C2_tilesPerRow_uncapped :
    tilesPerRow 1025 = 33 ∧
    tilesPerRow 1025 * ATLAS_TILE_SIZE = 4224 ∧
    (buildAtlasData (List.replicate 1025 demoPhoto)).width = 4096 ∧
    tileOfPhoto 1025 32 demoPhoto ∈ buildAtlasTiles (List.replicate 1025 demoPhoto) ∧
    (tileOfPhoto 1025 32 demoPhoto).x = 4096 ∧
    (buildAtlasData (List.replicate 1025 demoPhoto)).width
      < (tileOfPhoto 1025 32 demoPhoto).x + (tileOfPhoto 1025 32 demoPhoto).width := by
  have hs : Nat.sqrt 1025 = 32 := by
    apply le_antisymm
    · have h33 := Nat.sqrt_lt.mpr (show 1025 < 33 * 33 by norm_num)
      omega
    · exact Nat.le_sqrt.mpr (by norm_num)
  have ht : tilesPerRow 1025 = 33 := by
    rw [tilesPerRow, hs]; norm_num
  have hx : (tileOfPhoto 1025 32 demoPhoto).x = 4096 := by
    show tileXOf 1025 32 = 4096
    unfold tileXOf
    rw [ht]
    decide
  have hw : (buildAtlasData (List.replicate 1025 demoPhoto)).width = 4096 := by
    show atlasWidth (List.replicate 1025 demoPhoto).length = 4096
    rw [List.length_replicate]
    unfold atlasWidth
    rw [ht]
    decide
  refine ⟨ht, by rw [ht]; rfl, hw, ?_, hx, ?_⟩
  · have hget : (List.replicate 1025 demoPhoto).get? 32 = some demoPhoto := by
      rw [List.get?_eq_getElem?, List.getElem?_replicate]
      norm_num
    have hmem := tile_mem_buildAtlasTiles (List.replicate 1025 demoPhoto) 32 demoPhoto
      hget rfl
    rw [List.length_replicate] at hmem
    exact hmem
  · rw [hw, hx]
    decide

/-! ### Claim C8: batch error propagation -/

/-- Claim C8 (counterexample): in `reindexPhotos` a per-photo failure
is not caught per item: with the failing file first, the run aborts
with its error and the following processable photo is never processed,
although that photo is processed when reindexed alone. -/
theorem C8_counterexample :
    reindexRun [badFile, goodFile] = ([], 0, some 5) ∧
    (11 ∈ (reindexRun [badFile, goodFile]).1 → False) ∧
    reindexRun [goodFile] = ([11], 1, none) := by
  refine ⟨by decide, ?_, by decide⟩
  intro h
  simp [reindexRun, badFile, goodFile] at h

/-- Claim C8 as amended: upload processing catches and reports each
file's failure per item and never aborts the batch, but `reindexPhotos`
has no per-item handler: the first per-photo failure aborts the whole
reindex run with that error, and no later file is processed. -/
theorem C8_amended_batch_behaviour :
    (∀ files : List UploadFile,
      (handleUploadResults files).length = files.length ∧
      ∀ k f, files.get? k = some f →
        ∃ res, (handleUploadResults files).get? k = some res ∧
          res.name = f.name ∧
          (res.success = true ↔ ∃ i, f.processResult = Except.ok i)) ∧
    (∀ (f : ReindexFile) (rest : List ReindexFile) (e : Nat),
      f.extOk = true → f.existing = false → f.processResult = Except.error e →
      reindexRun (f :: rest) = ([], 0, some e)) := by
  constructor
  · intro files
    constructor
    · simp [handleUploadResults]
    · intro k f hk
      cases hf : f.processResult with
      | ok i =>
        refine ⟨{ name := f.name, success := true, photoId := some i, errCode := none },
          ?_, rfl, ?_⟩
        · simp only [handleUploadResults, List.get?_eq_getElem?, List.getElem?_map] at hk ⊢
          exact Option.map_eq_some.mpr ⟨f, hk, by simp [hf]⟩
        · simp [hf]
      | error e =>
        refine ⟨{ name := f.name, success := false, photoId := none, errCode := some e },
          ?_, rfl, ?_⟩
        · simp only [handleUploadResults, List.get?_eq_getElem?, List.getElem?_map] at hk ⊢
          exact Option.map_eq_some.mpr ⟨f, hk, by simp [hf]⟩
        · simp [hf]
  · intro f rest e hext hex herr
    simp [reindexRun, hext, hex, herr]

/-- Witness for the amended C8 at concrete inputs. -/
theorem C8_amended_witness :
    (handleUploadResults
      [{ name := 1, processResult := Except.error 7 },
       { name := 2, processResult := Except.ok 3 }]).length = 2 ∧
    reindexRun [badFile, goodFile] = ([], 0, some 5) := by
  constructor
  · have h := C8_amended_batch_behaviour.1
      [{ name := 1, processResult := Except.error 7 },
       { name := 2, processResult := Except.ok 3 }]
    simpa using h.1
  · have h := C8_amended_batch_behaviour.2 badFile [goodFile] 5 rfl rfl rfl
    simpa using h

/-! ### Claim C3: hover round trip -/

/-- Claim C3 (counterexample): with a scroll offset of 100 at
hover-end, the restore animation's endpoint is not the sprite's saved
original transform — `handleHoverEnd` targets `original.x - scrollOffset`,
so the sprite ends at x = −50 instead of its saved x = 50. -/
theorem C3_counterexample :
    animateSpriteAt { x := 400, y := 300, scale := 6 }
        (hoverEndTarget { x := 50, y := 20, scale := 1 } 100) 1
      ≠ { x := 50, y := 20, scale := 1 } := by
  intro h
  have hx := congrArg SpriteState.x h
  norm_num [animateSpriteAt, hoverEndTarget, easeCubic, easedValue] at hx

/-- Claim C3 as amended: every animation reaches its target exactly at
full progress; after hover-end the sprite's scale and y equal the saved
originals, while its x equals `original.x - scrollOffset`, which
coincides with the saved x exactly when the scroll offset at hover time
is zero. -/
theorem C3_hover_roundtrip_amended (zoomed original : SpriteState) (scrollOffset : ℚ) :
    (∀ s t : SpriteState, animateSpriteAt s t 1 = t) ∧
    (animateSpriteAt zoomed (hoverEndTarget original scrollOffset) 1).scale
      = original.scale ∧
    (animateSpriteAt zoomed (hoverEndTarget original scrollOffset) 1).y = original.y ∧
    (animateSpriteAt zoomed (hoverEndTarget original scrollOffset) 1).x
      = original.x - scrollOffset ∧
    (scrollOffset = 0 →
      animateSpriteAt zoomed (hoverEndTarget original scrollOffset) 1 = original) := by
  have he : easeCubic 1 = 1 := by norm_num [easeCubic]
  have hev : ∀ s e : ℚ, easedValue s e 1 = e := by
    intro s e
    unfold easedValue
    ring
  have hend : ∀ s t : SpriteState, animateSpriteAt s t 1 = t := by
    intro s t
    ext <;> simp [animateSpriteAt, he, hev]
  refine ⟨hend, ?_, ?_, ?_, ?_⟩
  · rw [hend]; rfl
  · rw [hend]; rfl
  · rw [hend]; rfl
  · intro h0
    rw [hend, h0]
    ext
    · simp [hoverEndTarget]
    · rfl
    · rfl

/-- Witness for the amended C3: hover that starts and ends at scroll
offset zero restores the sprite exactly. -/
theorem C3_hover_roundtrip_witness :
    animateSpriteAt { x := 0, y := 0, scale := 2 }
        (hoverEndTarget { x := 5, y := 6, scale := 1 } 0) 1
      = { x := 5, y := 6, scale := 1 } :=
  (C3_hover_roundtrip_amended { x := 0, y := 0, scale := 2 }
    { x := 5, y := 6, scale := 1 } 0).2.2.2.2 rfl

/-! ### Claim C5: mask thresholding -/

/-- Helper: the ceiling of three halves is two. -/
theorem ceil_three_halves : (⌈(3 : ℚ) / 2⌉ : ℤ) = 2 := by
  rw [Int.ceil_eq_iff]
  norm_num

/-- Helper: reading index `i < n` of `(List.range n).map f` with
default 0 yields `f i`. -/
theorem getD_map_range (f : Nat → Nat) (n i : Nat) (hi : i < n) :
    ((List.range n).map f).getD i 0 = f i := by
  rw [List.getD_eq_getElem?_getD, List.getElem?_map, List.getElem?_range hi]
  rfl

/-- Claim C5 (counterexample): the code thresholds with a strict
comparison against 128, so a pixel whose alpha byte is 128 — strictly
above the midpoint 127.5 of the 0-255 range, i.e. coverage above
50% — is mapped to 0, not 1: with a raster of constant alpha 128 the
generated mask is all zeros. -/
theorem C5_counterexample :
    (255 : ℚ) / 2 < 128 ∧ maskBit 128 = 0 ∧
    (generateTextMask (constCanvasEnv 128) ("A") (1 / 100) ("F")).pixels = [0, 0] := by
  refine ⟨by norm_num, by decide, ?_⟩
  simp only [generateTextMask, constCanvasEnv, maskBit]
  norm_num
  rw [ceil_three_halves]
  decide

/-- Claim C5 as amended: the mask's width is the ceiling of the
measured text width plus twice the padding `⌊20·scale⌋`, its height is
the ceiling of `⌊100·scale⌋ · 1.5` plus twice the padding, it has one
pixel per cell, and a pixel is 1 exactly when its rasterized alpha byte
is strictly greater than 128 (strictly more than 50.2% coverage), else
0. -/
theorem C5_mask_threshold_amended (env : CanvasEnv) (text : String) (scale : ℚ)
    (fontFamily : String) :
    (generateTextMask env text scale fontFamily).width
      = (Int.ceil (env.measureWidth fontFamily text (Int.floor (100 * scale)).toNat
          + ((Int.floor (20 * scale)).toNat : ℚ) * 2)).toNat ∧
    (generateTextMask env text scale fontFamily).height
      = (Int.ceil ((((Int.floor (100 * scale)).toNat : ℚ)) * (3 / 2)
          + ((Int.floor (20 * scale)).toNat : ℚ) * 2)).toNat ∧
    (generateTextMask env text scale fontFamily).pixels.length
      = (generateTextMask env text scale fontFamily).width
          * (generateTextMask env text scale fontFamily).height ∧
    (∀ i, i < (generateTextMask env text scale fontFamily).pixels.length →
      ((generateTextMask env text scale fontFamily).pixels.getD i 0 = 1 ↔
        128 < env.rasterAlpha fontFamily text (Int.floor (100 * scale)).toNat
          (Int.floor (20 * scale)).toNat
          (generateTextMask env text scale fontFamily).width
          (generateTextMask env text scale fontFamily).height i) ∧
      (env.rasterAlpha fontFamily text (Int.floor (100 * scale)).toNat
          (Int.floor (20 * scale)).toNat
          (generateTextMask env text scale fontFamily).width
          (generateTextMask env text scale fontFamily).height i ≤ 128 →
        (generateTextMask env text scale fontFamily).pixels.getD i 0 = 0)) := by
  refine ⟨rfl, rfl, by simp [generateTextMask], ?_⟩
  intro i hi
  have hlen : (generateTextMask env text scale fontFamily).pixels.length
      = (generateTextMask env text scale fontFamily).width
        * (generateTextMask env text scale fontFamily).height := by
    simp [generateTextMask]
  rw [hlen] at hi
  have hpix : (generateTextMask env text scale fontFamily).pixels.getD i 0
      = maskBit (env.rasterAlpha fontFamily text (Int.floor (100 * scale)).toNat
          (Int.floor (20 * scale)).toNat
          (generateTextMask env text scale fontFamily).width
          (generateTextMask env text scale fontFamily).height i) :=
    getD_map_range
      (fun j => maskBit (env.rasterAlpha fontFamily text (Int.floor (100 * scale)).toNat
        (Int.floor (20 * scale)).toNat
        (generateTextMask env text scale fontFamily).width
        (generateTextMask env text scale fontFamily).height j))
      ((generateTextMask env text scale fontFamily).width
        * (generateTextMask env text scale fontFamily).height) i hi
  rw [hpix]
  unfold maskBit
  constructor
  · split_ifs with h
    · simp [h]
    · simp [h]
  · intro hle
    have : ¬ 128 < env.rasterAlpha fontFamily text (Int.floor (100 * scale)).toNat
        (Int.floor (20 * scale)).toNat
        (generateTextMask env text scale fontFamily).width
        (generateTextMask env text scale fontFamily).height i := by omega
    simp [this]

/-- Witness for the amended C5 on a concrete raster of constant
alpha 200. -/
theorem C5_mask_threshold_witness :
    0 < (generateTextMask (constCanvasEnv 200) ("B") (1 / 100) ("F")).pixels.length ∧
    (generateTextMask (constCanvasEnv 200) ("B") (1 / 100) ("F")).pixels.getD 0 0 = 1 := by
  have hlen : (generateTextMask (constCanvasEnv 200) ("B") (1 / 100) ("F")).pixels.length = 2 := by
    simp only [generateTextMask, constCanvasEnv]
    norm_num
    rw [ceil_three_halves]
    decide
  have h := (C5_mask_threshold_amended (constCanvasEnv 200) ("B") (1 / 100) ("F")).2.2.2
    0 (by rw [hlen]; norm_num)
  exact ⟨by rw [hlen]; norm_num, (h.1).mpr (by norm_num [constCanvasEnv])⟩

/-! ### Claim C9: mask determinism -/

/-- Claim C9: the generated mask depends only on the text, the scale,
the font family, the font environment's measurement of that text and
the rasterized alpha data — two canvas environments that agree on those
produce identical masks (width, height and pixel contents), regardless
of the random tile shuffle used later. -/
theorem C9_mask_deterministic (env₁ env₂ : CanvasEnv) (text : String) (scale : ℚ)
    (fontFamily : String)
    (hm : env₁.measureWidth fontFamily text (Int.floor (100 * scale)).toNat
        = env₂.measureWidth fontFamily text (Int.floor (100 * scale)).toNat)
    (ha : ∀ p w h i, env₁.rasterAlpha fontFamily text (Int.floor (100 * scale)).toNat p w h i
        = env₂.rasterAlpha fontFamily text (Int.floor (100 * scale)).toNat p w h i) :
    generateTextMask env₁ text scale fontFamily
      = generateTextMask env₂ text scale fontFamily := by
  simp only [generateTextMask]
  rw [hm]
  have hfun : (fun i => maskBit (env₁.rasterAlpha fontFamily text
      (Int.floor (100 * scale)).toNat (Int.floor (20 * scale)).toNat
      (Int.ceil (env₂.measureWidth fontFamily text (Int.floor (100 * scale)).toNat
        + ((Int.floor (20 * scale)).toNat : ℚ) * 2)).toNat
      (Int.ceil ((((Int.floor (100 * scale)).toNat : ℚ)) * (3 / 2)
        + ((Int.floor (20 * scale)).toNat : ℚ) * 2)).toNat i))
      = (fun i => maskBit (env₂.rasterAlpha fontFamily text
      (Int.floor (100 * scale)).toNat (Int.floor (20 * scale)).toNat
      (Int.ceil (env₂.measureWidth fontFamily text (Int.floor (100 * scale)).toNat
        + ((Int.floor (20 * scale)).toNat : ℚ) * 2)).toNat
      (Int.ceil ((((Int.floor (100 * scale)).toNat : ℚ)) * (3 / 2)
        + ((Int.floor (20 * scale)).toNat : ℚ) * 2)).toNat i)) := by
    funext i
    rw [ha]
  rw [hfun]

/-- Witness for C9: two environments that differ only in the
measurement of an unrelated font family produce the same mask. -/
theorem C9_mask_deterministic_witness :
    generateTextMask (constCanvasEnv 200) ("AB") 1 ("F")
      = generateTextMask (altCanvasEnv 200) ("AB") 1 ("F") :=
  C9_mask_deterministic (constCanvasEnv 200) (altCanvasEnv 200) ("AB") 1 ("F")
    (by simp [constCanvasEnv, altCanvasEnv])
    (fun _ _ _ _ => rfl)

/-! ### Claim C1: foreground/background tile partition -/

/-- Claim C1 (evaluation at the failing input): the mapping loop uses
the shuffled foreground/background orderings only through their
lengths, so the tile the render engine actually shows is
`atlas.tiles[counter % n]` in original document order.  With the
two-tile atlas `[tDark, tBright]`, the foreground-shuffled ordering
(identity shuffle) is `[tBright, tDark]`, so a round-robin draw from it
would put `tBright` on the single foreground cell — but the produced
mapping has `tileIndex = 0` and the engine renders
`atlas.tiles[0] = tDark`, the worst foreground tile. -/
theorem C1_shuffled_ordering_unused :
    mapTilesToGlyph idRand idRand maskOne demoAtlas 1
      = [{ x := 0, y := 0, tileIndex := 0, isForeground := true }] ∧
    shuffledForeground idRand demoAtlas.tiles = [tBright, tDark] ∧
    renderedTile demoAtlas { x := 0, y := 0, tileIndex := 0, isForeground := true }
      = some tDark ∧
    tDark ≠ tBright := by
  refine ⟨?_, ?_, rfl, by simp [tDark, tBright]⟩
  · simp [mapTilesToGlyph, cellGrid, tilesX, tilesY, maskOne, mapStep, sampleX, sampleY,
      List.range_succ, List.foldl_cons, List.foldl_nil]
  · have hsorted : sortedForeground demoAtlas.tiles = [tBright, tDark] := by
      unfold sortedForeground
      simp [demoAtlas, List.mergeSort, List.splitInTwo, List.merge, List.splitAt,
        List.splitAt.go]
      norm_num [fgScore, tDark, tBright]
    unfold shuffledForeground
    rw [hsorted]
    rfl

/-! ### Claim C10: mapper bounds safety and cell count -/

/-- Helper: each pass of the mapping loop appends exactly one mapping. -/
theorem mapStep_foldl_length (mask : GlyphMask) (tileSize nF nB : Nat) :
    ∀ (cells : List (Nat × Nat)) (st : Nat × Nat × List TileMapping),
      ((cells.foldl (mapStep mask tileSize nF nB) st).2.2).length
        = st.2.2.length + cells.length := by
  intro cells
  induction cells with
  | nil => intro st; rfl
  | cons c cs ih =>
      intro st
      rw [List.foldl_cons, ih]
      simp only [mapStep]
      split_ifs <;> simp <;> omega

/-- Helper: the cell grid has one entry per (column, row) pair. -/
theorem cellGrid_length (mask : GlyphMask) (tileSize : Nat) :
    (cellGrid mask tileSize).length = tilesX mask tileSize * tilesY mask tileSize := by
  unfold cellGrid
  rw [List.length_flatMap]
  simp only [Function.comp_def, List.length_map, List.map_const', List.length_range,
    List.sum_replicate, smul_eq_mul]
  exact Nat.mul_comm _ _

/-- Claim C10: for a nonempty mask and positive tile size, every cell's
clamped center sample lies strictly inside the mask (its row-major
index is below `width * height`, including for partial cells at the
right and bottom edges), and the mapping list has exactly
`tilesX * tilesY` entries. -/
theorem C10_mapper_safety (randF randB : Nat → Nat) (mask : GlyphMask)
    (atlasData : AtlasData) (tileSize : Nat)
    (hw : 1 ≤ mask.width) (hh : 1 ≤ mask.height) :
    (mapTilesToGlyph randF randB mask atlasData tileSize).length
      = tilesX mask tileSize * tilesY mask tileSize ∧
    ∀ tx ty, sampleX tx tileSize mask.width ≤ mask.width - 1 ∧
      sampleY ty tileSize mask.height ≤ mask.height - 1 ∧
      sampleY ty tileSize mask.height * mask.width + sampleX tx tileSize mask.width
        < mask.width * mask.height := by
  constructor
  · simp only [mapTilesToGlyph]
    rw [mapStep_foldl_length, cellGrid_length]
    simp
  · intro tx ty
    refine ⟨min_le_right _ _, min_le_right _ _, ?_⟩
    have hx : sampleX tx tileSize mask.width ≤ mask.width - 1 := min_le_right _ _
    have hy : sampleY ty tileSize mask.height ≤ mask.height - 1 := min_le_right _ _
    obtain ⟨w', hw'⟩ : ∃ w', mask.width = w' + 1 := ⟨mask.width - 1, by omega⟩
    obtain ⟨h', hh'⟩ : ∃ h', mask.height = h' + 1 := ⟨mask.height - 1, by omega⟩
    rw [hw'] at hx ⊢
    rw [hh'] at hy ⊢
    simp only [Nat.add_sub_cancel] at hx hy
    calc sampleY ty tileSize (h' + 1) * (w' + 1) + sampleX tx tileSize (w' + 1)
        ≤ h' * (w' + 1) + w' := Nat.add_le_add (Nat.mul_le_mul_right _ hy) hx
      _ < (w' + 1) * (h' + 1) := by
          have hq : (w' + 1) * (h' + 1) = h' * (w' + 1) + (w' + 1) := by ring
          rw [hq]
          exact Nat.add_lt_add_left (Nat.lt_succ_self w') _

/-- Witness for C10 on a 3 × 3 checker mask with tile size 2. -/
theorem C10_mapper_safety_witness :
    (mapTilesToGlyph idRand idRand maskChecker demoAtlas 2).length
      = tilesX maskChecker 2 * tilesY maskChecker 2 ∧
    sampleY 1 2 maskChecker.height * maskChecker.width + sampleX 1 2 maskChecker.width
      < maskChecker.width * maskChecker.height := by
  have h := C10_mapper_safety idRand idRand maskChecker demoAtlas 2
    (by decide) (by decide)
  exact ⟨h.1, (h.2 1 1).2.2⟩

/-! ### Claim C4: atlas metadata tile count and contents -/

/-- Helper: the placement loop keeps exactly the photos whose 512px
variant exists, one metadata tile each (stated over `enumFrom` so the
induction can shift the start index). -/
theorem length_filterMap_enumFrom (n : Nat) (l : List Photo) :
    ∀ k : Nat,
      ((List.enumFrom k l).filterMap
        (fun ip => if ip.2.has512Variant then some (tileOfPhoto n ip.1 ip.2) else none)).length
      = (l.filter (fun p => p.has512Variant)).length := by
  induction l with
  | nil => intro k; simp
  | cons p rest ih =>
      intro k
      by_cases hv : p.has512Variant <;>
        simp [List.enumFrom, List.filterMap_cons, List.filter_cons, hv, ih]

/-- Claim C4: the atlas metadata document has exactly one tile entry
per photo whose 512px variant file exists (missing-variant photos are
skipped, not zero-filled), and every entry is the tile of such a photo
at its enumeration index, carrying the photo's id, filename, the
128 × 128 cell rectangle and the copied avgColor/luma/saturation. -/
theorem C4_atlas_tiles_exact (photos : List Photo) :
    (buildAtlasData photos).tiles.length
      = (photos.filter (fun p => p.has512Variant)).length ∧
    ∀ t ∈ (buildAtlasData photos).tiles, ∃ i p, photos.get? i = some p ∧
      p.has512Variant = true ∧ t = tileOfPhoto photos.length i p := by
  constructor
  · show (buildAtlasTiles photos).length = _
    simp only [buildAtlasTiles]
    exact length_filterMap_enumFrom photos.length photos 0
  · intro t ht
    have ht2 : t ∈ (List.enum photos).filterMap
        (fun ip => if ip.2.has512Variant then some (tileOfPhoto photos.length ip.1 ip.2)
          else none) := ht
    obtain ⟨⟨i, p⟩, hmem, hf⟩ := List.mem_filterMap.mp ht2
    have hg : photos.get? i = some p := by
      have hg' := List.mk_mem_enum_iff_getElem?.mp hmem
      simpa using hg'
    by_cases hv : p.has512Variant
    · refine ⟨i, p, hg, hv, ?_⟩
      simp only [hv, if_true] at hf
      exact (Option.some.injEq _ _ ▸ hf).symm
    · simp [hv] at hf

/-- Witness for C4 on a two-photo list with one missing variant. -/
theorem C4_atlas_tiles_exact_witness :
    (buildAtlasData [demoPhoto, demoPhotoNoVariant]).tiles.length
      = ([demoPhoto, demoPhotoNoVariant].filter (fun p => p.has512Variant)).length :=
  (C4_atlas_tiles_exact [demoPhoto, demoPhotoNoVariant]).1

/-! ### Claim C6: scroll offset invariant -/

/-- Helper: one scrolling tick keeps the offset magnitude within a
nonnegative loop width. -/
theorem abs_scrollTick_le (s : ℚ) (dir : Bool) (L d o : ℚ) (hL : 0 ≤ L) :
    |scrollTick s dir L d o| ≤ L := by
  simp only [scrollTick]
  set e := (if dir then (1 : ℚ) else -1) with he
  split_ifs with h
  · simpa using hL
  · exact not_lt.mp h

/-- Helper: a whole scrolling run keeps the offset magnitude within a
nonnegative loop width. -/
theorem abs_scrollRun_le (s : ℚ) (dir : Bool) (L : ℚ) (ds : List ℚ) (o : ℚ)
    (hL : 0 ≤ L) (ho : |o| ≤ L) : |scrollRun s dir L ds o| ≤ L := by
  induction ds generalizing o with
  | nil => simpa [scrollRun] using ho
  | cons d ds ih =>
      have h1 := abs_scrollTick_le s dir L d o hL
      simpa [scrollRun] using ih _ h1

/-- Helper: after scene duplication the loop width is the content width
plus the fixed gap of 100 — the distance between each sprite and its
duplicate. -/
theorem getLoopWidth_duplicate (x : ℚ) (xs : List ℚ) (W : ℚ) (hW : 0 ≤ W) :
    getLoopWidth (duplicateXs (x :: xs) W) = W + 100 := by
  have hlen : (duplicateXs (x :: xs) W).length = (xs.length + 1) + (xs.length + 1) := by
    simp only [duplicateXs, List.length_append, List.length_cons, List.length_map]
  have hhalf : (duplicateXs (x :: xs) W).length / 2 = xs.length + 1 := by
    rw [hlen]; omega
  have hget1 : (duplicateXs (x :: xs) W).getD (xs.length + 1) 0 = x + W + 100 := by
    unfold duplicateXs
    rw [List.getD_eq_getElem?_getD, List.getElem?_append_right (by simp)]
    simp
  have hget0 : (duplicateXs (x :: xs) W).getD 0 0 = x := by
    unfold duplicateXs
    rw [List.getD_eq_getElem?_getD, List.getElem?_append_left (by simp)]
    simp
  unfold getLoopWidth
  rw [if_neg (by rw [hlen]; omega), hhalf, hget1, hget0]
  have hx : x + W + 100 - x = W + 100 := by ring
  rw [hx]
  exact abs_of_nonneg (by linarith)

/-- Claim C6: in every scrolling run the offset advances each tick by
`scrollSpeed * delta * direction`; the advanced offset is reset to
exactly zero precisely when its magnitude exceeds the loop width and is
kept unchanged otherwise; hence after every tick the offset magnitude
stays at most the loop width, which is the (nonnegative) distance
between the original sprite strip and its duplicate. -/
theorem C6_scroll_offset_invariant (s : ℚ) (dir : Bool) (L : ℚ) (ds : List ℚ) (o : ℚ)
    (hL : 0 ≤ L) (ho : |o| ≤ L) :
    |scrollRun s dir L ds o| ≤ L ∧
    (∀ d o', L < |o' + s * d * (if dir then 1 else -1)| →
      scrollTick s dir L d o' = 0) ∧
    (∀ d o', |o' + s * d * (if dir then 1 else -1)| ≤ L →
      scrollTick s dir L d o' = o' + s * d * (if dir then 1 else -1)) ∧
    (∀ (x : ℚ) (xs : List ℚ) (W : ℚ), 0 ≤ W →
      getLoopWidth (duplicateXs (x :: xs) W) = W + 100) := by
  refine ⟨abs_scrollRun_le s dir L ds o hL ho, ?_, ?_, ?_⟩
  · intro d o' h
    simp only [scrollTick]
    rw [if_pos h]
  · intro d o' h
    simp only [scrollTick]
    rw [if_neg (not_lt.mpr h)]
  · intro x xs W hW
    exact getLoopWidth_duplicate x xs W hW

/-- Witness for C6 on a concrete run. -/
theorem C6_scroll_offset_invariant_witness :
    (0 : ℚ) ≤ 10 ∧ |(0 : ℚ)| ≤ 10 ∧ |scrollRun 5 true 10 [1, 2] 0| ≤ 10 :=
  ⟨by norm_num, by simp,
    (C6_scroll_offset_invariant 5 true 10 [1, 2] 0 (by norm_num) (by simp)).1⟩

end FD
